import Mathlib

/-
Verification of the visitor sign-out core of the VisitorManagement API.

The embedding models the `visitors` table as a list of rows and each
Express route handler of `src/routes/visitors.js` as a pure function
from the table (plus an explicit failure flag for the external
collaborator: the MySQL driver callback error, or the QR encoder
callback error) to the new table and the HTTP response sent.

Route parameters in Express are strings, and the handlers never parse
them, so visitor ids are modelled as strings throughout; the SQL
`WHERE id = ?` comparison is row-by-row equality on the id field.
-/

namespace VMS

/-- A row of the `visitors` table, with the columns the routes in
`src/routes/visitors.js` read or write. -/
structure Visitor where
  id : String
  first_name : String
  last_name : String
  email : String
  phone : String
  gender : String
  company_id : String
  department_id : String
  designation_id : String
  whom_to_meet : String
  purpose : String
  aadhar_no : String
  address : String
  image : Option String
  qr_status : String
  status : Bool
  deriving DecidableEq, Repr

/-- The response an Express handler sends: a 500 error passthrough
(`res.status(500).send(err)`), an HTML page (`res.send`), or a JSON
body (`res.json`) carrying either a QR data URL or a message. -/
inductive Response where
  | serverError : Response
  | html : String → Response
  | jsonQr : String → Response
  | jsonMsg : String → Response
  deriving DecidableEq, Repr

/-- Effect of `UPDATE visitors SET qr_status = 'used' WHERE id = ?`
(the query run by `GET /signout/:id`, src/routes/visitors.js line 278):
every row whose id matches is set to `used`, unconditionally. -/
def signoutQuery (id : String) (s : List Visitor) : List Visitor :=
  s.map fun v => if v.id = id then { v with qr_status := "used" } else v

/-- The confirmation page sent by `GET /signout/:id` on success
(src/routes/visitors.js line 280). -/
def successHtml (id : String) : String :=
  "<h2>Visitor ID " ++ id ++ " signed out successfully. QR is now invalid.</h2>"

/-- Handler of `GET /api/visitors/signout/:id` (src/routes/visitors.js
lines 276-283): runs `signoutQuery`; if the driver reports an error the
handler sends the error and the update does not apply, otherwise it
sends the confirmation page. -/
def redeemToken (id : String) (dbErr : Bool) (s : List Visitor) :
    List Visitor × Response :=
  if dbErr then (s, Response.serverError)
  else (signoutQuery id s, Response.html (successHtml id))

/-- Effect of `UPDATE visitors SET status = NOT status WHERE id = ?`
(the query run by `PUT /:id/status`, src/routes/visitors.js line 231). -/
def toggleQuery (id : String) (s : List Visitor) : List Visitor :=
  s.map fun v => if v.id = id then { v with status := !v.status } else v

/-- Handler of `PUT /api/visitors/:id/status` (src/routes/visitors.js
lines 229-235). -/
def toggleCheckInStatus (id : String) (dbErr : Bool) (s : List Visitor) :
    List Visitor × Response :=
  if dbErr then (s, Response.serverError)
  else (toggleQuery id s, Response.jsonMsg "Status toggled")

/-- The request body and optional uploaded file of `PUT /api/visitors/:id`
(src/routes/visitors.js lines 171-186): twelve text fields plus
`req.file?.filename`, which is absent when no file was uploaded. -/
structure UpdatePayload where
  first_name : String
  last_name : String
  email : String
  phone : String
  gender : String
  company_id : String
  department_id : String
  designation_id : String
  whom_to_meet : String
  purpose : String
  aadhar_no : String
  address : String
  file : Option String
  deriving DecidableEq, Repr

/-- JavaScript truthiness of `req.file?.filename`: `undefined` and the
empty string are falsy (the guard `if (image)` at line 200). -/
def jsTruthy : Option String → Bool
  | none => false
  | some t => t != ""

/-- Effect of the `UPDATE visitors SET ... WHERE id = ?` statement built
by `PUT /:id` (src/routes/visitors.js lines 188-206): the twelve text
columns are set from the body, `image` is set only when a file was
uploaded (`if (image)`), and `id`, `qr_status`, `status` are not in the
SET list. -/
def updateQuery (id : String) (p : UpdatePayload) (s : List Visitor) :
    List Visitor :=
  s.map fun v =>
    if v.id = id then
      { v with
        first_name := p.first_name
        last_name := p.last_name
        email := p.email
        phone := p.phone
        gender := p.gender
        company_id := p.company_id
        department_id := p.department_id
        designation_id := p.designation_id
        whom_to_meet := p.whom_to_meet
        purpose := p.purpose
        aadhar_no := p.aadhar_no
        address := p.address
        image := if jsTruthy p.file then p.file else v.image }
    else v

/-- Handler of `PUT /api/visitors/:id` (src/routes/visitors.js
lines 169-212). -/
def updateVisitor (id : String) (p : UpdatePayload) (dbErr : Bool)
    (s : List Visitor) : List Visitor × Response :=
  if dbErr then (s, Response.serverError)
  else (updateQuery id p s, Response.jsonMsg "Visitor updated successfully")

/-- The fixed part of the redemption URL embedded in every QR token
(src/routes/visitors.js lines 127 and 254). -/
def urlBase : String := "http://localhost:3001/api/visitors/signout/"

/-- The text encoded into the QR image: the redemption URL for the
given visitor id (src/routes/visitors.js line 254). -/
def qrText (id : String) : String := urlBase ++ id

/-- Handler of `GET /api/visitors/:id/card` (src/routes/visitors.js
lines 252-259): runs no database query at all; it encodes `qrText id`
and sends the resulting data URL, or the encoder error. The token
payload is modelled by the text the QR image wraps. -/
def issueToken (id : String) (encErr : Bool) (s : List Visitor) :
    List Visitor × Response :=
  if encErr then (s, Response.serverError)
  else (s, Response.jsonQr (qrText id))

/-- Recover the visitor id embedded in a redemption URL: the characters
after the fixed base. -/
def decodeTokenId (url : String) : String :=
  ⟨url.data.drop urlBase.length⟩

/-- One API operation touching the visitors table, for stating
invariants quantified over all operations of the system. -/
inductive Op where
  | redeem (id : String) : Op
  | toggle (id : String) : Op
  | update (id : String) (p : UpdatePayload) : Op
  | issue (id : String) : Op
  deriving Repr

/-- The effect of each operation on the visitors table (failure-free
runs; on a driver error every handler leaves the table unchanged). -/
def applyOp : Op → List Visitor → List Visitor
  | Op.redeem id, s => signoutQuery id s
  | Op.toggle id, s => toggleQuery id s
  | Op.update id p, s => updateQuery id p s
  | Op.issue _, s => s

/-- A concrete visitor row used to instantiate theorems. -/
def sampleVisitor (id : String) (qr : String) (st : Bool) : Visitor :=
  { id := id, first_name := "Asha", last_name := "Rao", email := "a@x.io",
    phone := "99", gender := "Female", company_id := "1",
    department_id := "2", designation_id := "3", whom_to_meet := "4",
    purpose := "meeting", aadhar_no := "0000", address := "Pune",
    image := none, qr_status := qr, status := st }

/-- A concrete update payload used to instantiate theorems. -/
def samplePayload : UpdatePayload :=
  { first_name := "Asha", last_name := "R", email := "b@x.io",
    phone := "77", gender := "Female", company_id := "9",
    department_id := "8", designation_id := "7", whom_to_meet := "6",
    purpose := "interview", aadhar_no := "1111", address := "Mumbai",
    file := none }

/-- Every row of the table produced by `signoutQuery` whose id matches
the redeemed id carries `qr_status = "used"`. -/
theorem signoutQuery_qr_used (id : String) (s : List Visitor) :
    ∀ w ∈ signoutQuery id s, w.id = id → w.qr_status = "used" := by
  intro w hw hid
  simp only [signoutQuery, List.mem_map] at hw
  obtain ⟨v, _, rfl⟩ := hw
  by_cases hc : v.id = id
  · rw [if_pos hc]
  · rw [if_neg hc] at hid ⊢
    exact absurd hid hc

/-- C1: for every visitor id whose row exists with `qr_status = "unused"`,
redeeming the token (`GET /signout/:id`) leaves that visitor's row with
`qr_status = "used"`; the proof never consults the prior state, matching
the unconditional update-by-id statement. -/
theorem redeem_marks_qr_used (id : String) (s : List Visitor)
    (h : ∃ v ∈ s, v.id = id ∧ v.qr_status = "unused") :
    ∀ w ∈ (redeemToken id false s).1, w.id = id → w.qr_status = "used" := by
  have hfst : (redeemToken id false s).1 = signoutQuery id s := rfl
  rw [hfst]
  exact signoutQuery_qr_used id s

/-- Witness for C1 at a concrete one-row table. -/
theorem redeem_marks_qr_used_witness :
    (sampleVisitor "7" "used" true).qr_status = "used" :=
  redeem_marks_qr_used "7" [sampleVisitor "7" "unused" true]
    ⟨sampleVisitor "7" "unused" true, by decide, by decide, by decide⟩
    (sampleVisitor "7" "used" true) (by decide) (by decide)

/-- C2: `qr_status` is monotonic: under every operation of the system a
row that reads `"used"` still reads `"used"` afterwards. -/
theorem qr_status_monotonic (op : Op) (s : List Visitor) (i : Nat)
    (v : Visitor) (hv : s[i]? = some v) (hused : v.qr_status = "used") :
    ∃ w, (applyOp op s)[i]? = some w ∧ w.qr_status = "used" := by
  cases op with
  | redeem id =>
      refine ⟨if v.id = id then { v with qr_status := "used" } else v,
        by simp [applyOp, signoutQuery, List.getElem?_map, hv], ?_⟩
      by_cases hc : v.id = id
      · rw [if_pos hc]
      · rw [if_neg hc]; exact hused
  | toggle id =>
      refine ⟨if v.id = id then { v with status := !v.status } else v,
        by simp [applyOp, toggleQuery, List.getElem?_map, hv], ?_⟩
      by_cases hc : v.id = id
      · rw [if_pos hc]; exact hused
      · rw [if_neg hc]; exact hused
  | update id p =>
      refine ⟨if v.id = id then
          { v with
            first_name := p.first_name, last_name := p.last_name,
            email := p.email, phone := p.phone, gender := p.gender,
            company_id := p.company_id, department_id := p.department_id,
            designation_id := p.designation_id, whom_to_meet := p.whom_to_meet,
            purpose := p.purpose, aadhar_no := p.aadhar_no, address := p.address,
            image := if jsTruthy p.file then p.file else v.image }
        else v,
        by simp [applyOp, updateQuery, List.getElem?_map, hv], ?_⟩
      by_cases hc : v.id = id
      · rw [if_pos hc]; exact hused
      · rw [if_neg hc]; exact hused
  | issue id =>
      exact ⟨v, by simpa [applyOp] using hv, hused⟩

/-- Witness for C2 at a concrete one-row table and a toggle operation. -/
theorem qr_status_monotonic_witness :
    ∃ w, (applyOp (Op.toggle "7") [sampleVisitor "7" "used" true])[0]?
        = some w ∧ w.qr_status = "used" :=
  qr_status_monotonic (Op.toggle "7") [sampleVisitor "7" "used" true] 0
    (sampleVisitor "7" "used" true) (by decide) (by decide)

/-- C3: redeeming an id that matches no row returns the rendered success
page and leaves the table exactly as it was; no row is created or
changed. -/
theorem redeem_missing_id_noop (id : String) (s : List Visitor)
    (h : ∀ v ∈ s, v.id ≠ id) :
    redeemToken id false s = (s, Response.html (successHtml id)) := by
  have hs : signoutQuery id s = s := by
    unfold signoutQuery
    have hmap : s.map (fun v => if v.id = id then { v with qr_status := "used" } else v)
        = s.map (fun v => v) := by
      apply List.map_congr_left
      intro a ha
      rw [if_neg (h a ha)]
    simpa using hmap
  show (signoutQuery id s, Response.html (successHtml id)) = _
  rw [hs]

/-- Witness for C3: redeeming id 9 against a table holding only id 7. -/
theorem redeem_missing_id_noop_witness :
    redeemToken "9" false [sampleVisitor "7" "unused" true]
      = ([sampleVisitor "7" "unused" true], Response.html (successHtml "9")) :=
  redeem_missing_id_noop "9" [sampleVisitor "7" "unused" true] (by decide)

/-- C4: redemption is idempotent: redeeming again from the state left by
a first redemption re-executes the same update and returns the very same
success response and the very same state; nothing in the response
distinguishes an already-redeemed token. -/
theorem redeem_idempotent (id : String) (s : List Visitor) :
    redeemToken id false ((redeemToken id false s).1) = redeemToken id false s := by
  have key : signoutQuery id (signoutQuery id s) = signoutQuery id s := by
    unfold signoutQuery
    rw [List.map_map]
    apply List.map_congr_left
    intro a _
    by_cases hc : a.id = id
    · simp [Function.comp, hc]
    · simp [Function.comp, hc]
  simp [redeemToken, key]

/-- C5: toggling check-in status twice restores the table exactly, and a
single toggle never changes any row's `qr_status`. -/
theorem toggle_involutive (id : String) (s : List Visitor) :
    (toggleCheckInStatus id false ((toggleCheckInStatus id false s).1)).1 = s ∧
    (toggleCheckInStatus id false s).1.map Visitor.qr_status
      = s.map Visitor.qr_status := by
  constructor
  · show toggleQuery id (toggleQuery id s) = s
    unfold toggleQuery
    rw [List.map_map]
    have hmap : s.map ((fun v : Visitor => if v.id = id then { v with status := !v.status } else v)
          ∘ (fun v : Visitor => if v.id = id then { v with status := !v.status } else v))
        = s.map (fun v => v) := by
      apply List.map_congr_left
      intro a _
      cases a with
      | mk aid f1 f2 f3 f4 f5 f6 f7 f8 f9 f10 f11 f12 img qr st =>
        by_cases hc : aid = id
        · simp [Function.comp, hc, Bool.not_not]
        · simp [Function.comp, hc]
    simpa using hmap
  · show (toggleQuery id s).map Visitor.qr_status = s.map Visitor.qr_status
    unfold toggleQuery
    rw [List.map_map]
    apply List.map_congr_left
    intro a _
    by_cases hc : a.id = id
    · simp [Function.comp, hc]
    · simp [Function.comp, hc]

/-- C6: the id embedded in an issued token's redemption URL decodes back
to exactly the visitor id it was issued for. -/
theorem token_roundtrip (v : String) : decodeTokenId (qrText v) = v := by
  have h1 : (qrText v).data = urlBase.data ++ v.data := by
    simp [qrText, String.data_append]
  unfold decodeTokenId
  rw [h1]
  rw [show urlBase.length = urlBase.data.length from rfl]
  rw [List.drop_left]

/-- C7: issuing a token (`GET /:id/card`) runs no database statement:
the visitors table after the call is the table before it, whether or
not encoding succeeds. -/
theorem issue_no_side_effect (id : String) (encErr : Bool) (s : List Visitor) :
    (issueToken id encErr s).1 = s := by
  cases encErr <;> rfl

/-- C8: redemption fails exactly when the store update fails and
issuance fails exactly when encoding fails; a failure is surfaced as the
error response with the table untouched and no success body, and absent
a failure the success body is sent. -/
theorem error_propagation (id : String) (s : List Visitor) :
    redeemToken id true s = (s, Response.serverError) ∧
    (redeemToken id false s).2 = Response.html (successHtml id) ∧
    (redeemToken id false s).2 ≠ Response.serverError ∧
    issueToken id true s = (s, Response.serverError) ∧
    (issueToken id false s).2 = Response.jsonQr (qrText id) ∧
    (issueToken id false s).2 ≠ Response.serverError := by
  refine ⟨rfl, rfl, ?_, rfl, rfl, ?_⟩
  · intro hcontra
    simp [redeemToken] at hcontra
  · intro hcontra
    simp [issueToken] at hcontra

/-- C9: two redemption requests for the same id against an `unused` row,
interleaved as two atomic row updates, both receive the success page --
neither is told the token was already used -- and the row ends with
`qr_status = "used"`. -/
theorem concurrent_redeem_no_exclusivity (id : String) (s : List Visitor)
    (h : ∃ v ∈ s, v.id = id ∧ v.qr_status = "unused") :
    (redeemToken id false s).2 = Response.html (successHtml id) ∧
    (redeemToken id false ((redeemToken id false s).1)).2
      = Response.html (successHtml id) ∧
    ∀ w ∈ (redeemToken id false ((redeemToken id false s).1)).1,
      w.id = id → w.qr_status = "used" := by
  refine ⟨rfl, rfl, ?_⟩
  have hfst : (redeemToken id false ((redeemToken id false s).1)).1
      = signoutQuery id (signoutQuery id s) := rfl
  rw [hfst]
  exact signoutQuery_qr_used id (signoutQuery id s)

/-- Witness for C9 at a concrete one-row table. -/
theorem concurrent_redeem_no_exclusivity_witness :
    (redeemToken "7" false [sampleVisitor "7" "unused" true]).2
      = Response.html (successHtml "7") :=
  (concurrent_redeem_no_exclusivity "7" [sampleVisitor "7" "unused" true]
    ⟨sampleVisitor "7" "unused" true, by decide, by decide, by decide⟩).1

/-- The columns `PUT /:id` never places in its SET list. -/
def keyFields (v : Visitor) : String × String × Bool :=
  (v.id, v.qr_status, v.status)

/-- C10: updating a visitor leaves `id`, `qr_status` and `status` of
every row unchanged, and leaves `image` unchanged whenever the request
carries no uploaded file. -/
theorem update_frame (id : String) (p : UpdatePayload) (s : List Visitor) :
    (updateVisitor id p false s).1.map keyFields = s.map keyFields ∧
    (p.file = none →
      (updateVisitor id p false s).1.map Visitor.image = s.map Visitor.image) := by
  constructor
  · show (updateQuery id p s).map keyFields = s.map keyFields
    unfold updateQuery
    rw [List.map_map]
    apply List.map_congr_left
    intro a _
    by_cases hc : a.id = id
    · simp [Function.comp, hc, keyFields]
    · simp [Function.comp, hc]
  · intro hf
    show (updateQuery id p s).map Visitor.image = s.map Visitor.image
    unfold updateQuery
    rw [List.map_map]
    apply List.map_congr_left
    intro a _
    by_cases hc : a.id = id
    · simp [Function.comp, hc, hf, jsTruthy]
    · simp [Function.comp, hc]

/-- Witness for C10 at a concrete one-row table and a payload with no
uploaded file. -/
theorem update_frame_witness :
    (updateVisitor "7" samplePayload false [sampleVisitor "7" "unused" true]).1.map keyFields
        = [sampleVisitor "7" "unused" true].map keyFields ∧
    (updateVisitor "7" samplePayload false [sampleVisitor "7" "unused" true]).1.map Visitor.image
        = [sampleVisitor "7" "unused" true].map Visitor.image :=
  ⟨(update_frame "7" samplePayload [sampleVisitor "7" "unused" true]).1,
   (update_frame "7" samplePayload [sampleVisitor "7" "unused" true]).2 rfl⟩

end VMS
